import Mathlib

/-!
Verification of the Modbus frame processor of `src/server.rs`.

Bytes and 16-bit words are represented as `Nat` with explicit `% 256` /
`% 65536` normalisation where the Rust types truncate.  Rust's panicking
frame indexing (`frame[i]` on the fixed `[u8; 256]` buffer) is embedded as an
`Except`-valued read that fails with the offending index, so that totality and
bounds claims are statable.  Wrapping of `u8`/`u16` additions is embedded as
`% 256` / `% 65536` (release-profile semantics).  The register context module
(`context.rs`) is not part of the sources, so its operations are modelled from
the specification, each marked in its doc comment.
-/

set_option maxRecDepth 10000

/-- Protocol selection, translated from `ModbusProto` in `src/server.rs`. -/
inductive ModbusProto
  | Rtu
  | TcpUdp
deriving DecidableEq

/-- A runtime panic of the Rust source: an out-of-bounds index into the
256-byte frame buffer. -/
inductive PanicErr
  | indexOutOfBounds (i : Nat)
deriving DecidableEq

/-- Error value of the register-context accessors (the spec's
AddressOutOfRange). -/
inductive ContextError
  | addressOutOfRange
deriving DecidableEq

/-- The register context: four independent banks (spec section 3).  Bank sizes
are the list lengths, fixed at creation. -/
structure ModbusContext where
  coils : List Bool
  discretes : List Bool
  holdings : List Nat
  inputs : List Nat
deriving DecidableEq

/-- Reading `frame[i]` on the Rust side: the value for `i` inside the buffer,
a panic for `i` outside it.  Values are normalised to bytes. -/
def frameByte (frame : List Nat) (i : Nat) : Except PanicErr Nat :=
  if i < frame.length then .ok (frame.getD i 0 % 256) else .error (.indexOutOfBounds i)

/-- Reading the slice `frame[a..b]` on the Rust side (always called with
`a ≤ b` in the source): the byte values for `b` within bounds, a panic
otherwise. -/
def frameSlice (frame : List Nat) (a b : Nat) : Except PanicErr (List Nat) :=
  if b ≤ frame.length then .ok (((frame.drop a).take (b - a)).map (fun x => x % 256))
  else .error (.indexOutOfBounds b)

/-- One shift round of the checksum loop: shift right, conditionally xor the
polynomial 0xA001 (the `for _ in (0..8).rev()` body of `calc_rtu_crc`). -/
def crcRound (crc : Nat) : Nat :=
  if crc % 2 = 1 then Nat.xor (crc / 2) 0xA001 else crc / 2

/-- Iterate `crcRound` n times. -/
def crcRounds : Nat → Nat → Nat
  | 0, crc => crc
  | n + 1, crc => crcRounds n (crcRound crc)

/-- Translated from `calc_rtu_crc` in `src/server.rs`: fold the first
`data_length` frame bytes into the 16-bit checksum, starting from 0xFFFF.
Every call site of the source passes `data_length` at most the frame length,
where `getD` agrees with the panicking index. -/
def calc_rtu_crc (frame : List Nat) (data_length : Nat) : Nat :=
  (List.range data_length).foldl
    (fun crc pos => crcRounds 8 (Nat.xor crc (frame.getD pos 0 % 256))) 0xffff

/-- Pure in-bounds byte read used to state theorems (`frameByte` is this value
whenever the index is inside the buffer). -/
def fbyte (frame : List Nat) (i : Nat) : Nat :=
  frame.getD i 0 % 256

/-- Frame offset of the unit id: 6 for TCP/UDP (after the MBAP header), 0 for
RTU (`start_frame` in `process_frame`). -/
def frameStart (proto : ModbusProto) : Nat :=
  match proto with
  | .TcpUdp => 6
  | .Rtu => 0

/-- The unit id byte of a frame. -/
def unitOf (frame : List Nat) (proto : ModbusProto) : Nat :=
  fbyte frame (frameStart proto)

/-- The function code byte of a frame. -/
def funcOf (frame : List Nat) (proto : ModbusProto) : Nat :=
  fbyte frame (frameStart proto + 1)

/-- Broadcast test of `process_frame`: unit id 0 or 255. -/
def isBroadcast (frame : List Nat) (proto : ModbusProto) : Bool :=
  unitOf frame proto == 0 || unitOf frame proto == 255

/-- TCP/UDP header validity test of `process_frame`: protocol id 0 and length
field at least 6 (trivially true for RTU, which has no header). -/
def headerOk (frame : List Nat) (proto : ModbusProto) : Bool :=
  match proto with
  | .Rtu => true
  | .TcpUdp =>
      (256 * fbyte frame 2 + fbyte frame 3 == 0)
        && (6 ≤ 256 * fbyte frame 4 + fbyte frame 5)

/-- Translated from the `check_frame_crc!` macro: for RTU, compare the
checksum over the first `len` bytes with the little-endian word at
`frame[len]`, `frame[len + 1]`; for TCP/UDP the check short-circuits to true
without touching the frame. -/
def check_frame_crc (proto : ModbusProto) (frame : List Nat) (len : Nat) :
    Except PanicErr Bool :=
  match proto with
  | .TcpUdp => .ok true
  | .Rtu => do
      let lo ← frameByte frame len
      let hi ← frameByte frame (len + 1)
      .ok (calc_rtu_crc frame len == lo + 256 * hi)

/-- Translated from the `response_error!` macro: for TCP/UDP append
`[0, 3, frame[7], frame[8] + 0x80, err]` (note the fixed offsets 7 and 8 of
the source), for RTU append `[frame[0], frame[1] + 0x80, err]`.  The `+ 0x80`
is a u8 addition, embedded with its release-profile wrapping. -/
def response_error (proto : ModbusProto) (frame : List Nat) (response : List Nat)
    (err : Nat) : Except PanicErr (List Nat) :=
  match proto with
  | .TcpUdp => do
      let b7 ← frameByte frame 7
      let b8 ← frameByte frame 8
      .ok (response ++ [0, 3, b7, (b8 + 0x80) % 256, err])
  | .Rtu => do
      let b0 ← frameByte frame 0
      let b1 ← frameByte frame 1
      .ok (response ++ [b0, (b1 + 0x80) % 256, err])

/-- Translated from the `response_set_data_len!` macro: for TCP/UDP append the
big-endian u16 length field, for RTU leave the response unchanged. -/
def response_set_data_len (proto : ModbusProto) (response : List Nat) (len : Nat) :
    List Nat :=
  match proto with
  | .TcpUdp => response ++ [len % 65536 / 256, len % 256]
  | .Rtu => response

/-- Translated from the `finalize_response!` macro: for RTU append the
checksum over the response (little-endian), for TCP/UDP return it as is. -/
def finalize_response (proto : ModbusProto) (response : List Nat) : List Nat :=
  match proto with
  | .Rtu =>
      let crc := calc_rtu_crc response (response.length % 256)
      response ++ [crc % 256, crc / 256]
  | .TcpUdp => response

/-- The echo prefix of the reply: for non-broadcast TCP/UDP the first four
frame bytes (transaction id and protocol id), otherwise empty. -/
def initResponse (frame : List Nat) (proto : ModbusProto) (broadcast : Bool) :
    List Nat :=
  if !broadcast && proto == ModbusProto.TcpUdp then
    ((frame.take 4).map (fun x => x % 256))
  else []

/-- Pack booleans into wire bytes: 8 per byte, low bit first (helper for the
bulk coil reader). -/
def boolsToByte (l : List Bool) : Nat :=
  (l.take 8).foldr (fun b acc => 2 * acc + (if b then 1 else 0)) 0

/-- Pack a boolean list into bytes of 8, low bit first, the last byte padded
with zeros. -/
def packBools (l : List Bool) : List Nat :=
  (List.range ((l.length + 7) / 8)).map (fun i => boolsToByte ((l.drop (8 * i)).take 8))

/-- Modelled from the spec: `context.rs` is not under `src/`.  Spec section 4.2,
`set(address, value, bank)`: single-cell write, failing with AddressOutOfRange
when the address is at or beyond the bank's configured size, and mutating
nothing on failure. -/
def context.set {α : Type} (reg : Nat) (value : α) (bank : List α) :
    Except ContextError (List α) :=
  if reg < bank.length then .ok (bank.set reg value) else .error .addressOutOfRange

/-- Modelled from the spec: `context.rs` is not under `src/`.  Spec section 4.2,
`get_bools_as_bytes(address, count, bank)`: pack `count` booleans starting at
`address` into bytes, 8 per byte, low bit first, zero padded; fails when the
range exceeds the bank. -/
def context.get_bools_as_u8 (reg count : Nat) (bank : List Bool) :
    Except ContextError (List Nat) :=
  if reg + count ≤ bank.length then .ok (packBools ((bank.drop reg).take count))
  else .error .addressOutOfRange

/-- Modelled from the spec: `context.rs` is not under `src/`.  Spec section 4.2,
`get_words_as_bytes(address, count, bank)`: big-endian two bytes per word over
`count` words starting at `address`; fails when the range exceeds the bank. -/
def context.get_regs_as_u8 (reg count : Nat) (bank : List Nat) :
    Except ContextError (List Nat) :=
  if reg + count ≤ bank.length then
    .ok ((((bank.drop reg).take count).map (fun w => [w % 65536 / 256, w % 256])).flatten)
  else .error .addressOutOfRange

/-- Modelled from the spec: `context.rs` is not under `src/`.  Spec section 4.2,
`set_bools_from_bytes(address, count, bytes, bank)`: inverse of the packing
reader — write `count` booleans decoded low-bit-first from `values` starting
at `address`; fails atomically when the range exceeds the bank.  A byte the
payload does not provide is read as zero (a case the spec leaves open). -/
def context.set_bools_from_u8 (reg count : Nat) (values : List Nat) (bank : List Bool) :
    Except ContextError (List Bool) :=
  if reg + count ≤ bank.length then
    .ok ((List.range count).foldl
      (fun b i => b.set (reg + i) (Nat.testBit (values.getD (i / 8) 0 % 256) (i % 8))) bank)
  else .error .addressOutOfRange

/-- Modelled from the spec: `context.rs` is not under `src/`.  Spec section 4.2,
`set_words_from_bytes(address, bytes, bank)`: inverse of the big-endian word
packing — write one word per byte pair of `values` starting at `address`
(an incomplete trailing byte is ignored); fails atomically when the range
exceeds the bank. -/
def context.set_regs_from_u8 (reg : Nat) (values : List Nat) (bank : List Nat) :
    Except ContextError (List Nat) :=
  if reg + values.length / 2 ≤ bank.length then
    .ok ((List.range (values.length / 2)).foldl
      (fun b i =>
        b.set (reg + i) (256 * (values.getD (2 * i) 0 % 256) + values.getD (2 * i + 1) 0 % 256))
      bank)
  else .error .addressOutOfRange

/-- The function-dispatch part of `process_frame` (everything from the
`if func >= 1 && func <= 4` chain of the source on), with the values the
preceding lines establish — frame offset, broadcast flag, response prefix and
function code — passed explicitly. -/
def process_frame_dispatch (frame : List Nat) (proto : ModbusProto) (ctx : ModbusContext)
    (start_frame : Nat) (broadcast : Bool) (response : List Nat) (func : Nat) :
    Except PanicErr (ModbusContext × Option (List Nat)) := do
  if 1 ≤ func ∧ func ≤ 4 then
    -- funcs 1 - 4: read coils / registers
    if broadcast then
      return (ctx, none)
    let crcOk ← check_frame_crc proto frame 6
    if !crcOk then
      return (ctx, none)
    let c4 ← frameByte frame (start_frame + 4)
    let c5 ← frameByte frame (start_frame + 5)
    let count := 256 * c4 + c5
    if ((func = 1 ∨ func = 2) ∧ 2000 < count) ∨ ((func = 3 ∨ func = 4) ∧ 125 < count) then
      let r ← response_error proto frame response 0x03
      return (ctx, some (finalize_response proto r))
    let r2 ← frameByte frame (start_frame + 2)
    let r3 ← frameByte frame (start_frame + 3)
    let reg := 256 * r2 + r3
    let result :=
      if func = 1 then context.get_bools_as_u8 reg count ctx.coils
      else if func = 2 then context.get_bools_as_u8 reg count ctx.discretes
      else if func = 3 then context.get_regs_as_u8 reg count ctx.holdings
      else context.get_regs_as_u8 reg count ctx.inputs
    match result with
    | .ok data =>
        let response := response_set_data_len proto response (data.length + 3)
        let hdr ← frameSlice frame start_frame (start_frame + 2)
        let response := response ++ hdr ++ [data.length % 256] ++ data
        return (ctx, some (finalize_response proto response))
    | .error _ =>
        let r ← response_error proto frame response 0x02
        return (ctx, some (finalize_response proto r))
  else if func = 5 then
    -- func 5: write single coil
    let crcOk ← check_frame_crc proto frame 6
    if !crcOk then
      return (ctx, none)
    let r2 ← frameByte frame (start_frame + 2)
    let r3 ← frameByte frame (start_frame + 3)
    let reg := 256 * r2 + r3
    let v4 ← frameByte frame (start_frame + 4)
    let v5 ← frameByte frame (start_frame + 5)
    let word := 256 * v4 + v5
    if word = 0xff00 ∨ word = 0x0000 then
      let val := word == 0xff00
      let result := context.set reg val ctx.coils
      let ctx := match result with
        | .ok coils => { ctx with coils := coils }
        | .error _ => ctx
      if broadcast then
        return (ctx, none)
      match result with
      | .error _ =>
          let r ← response_error proto frame response 0x02
          return (ctx, some (finalize_response proto r))
      | .ok _ =>
          let response := response_set_data_len proto response 6
          let echo ← frameSlice frame start_frame (start_frame + 6)
          return (ctx, some (finalize_response proto (response ++ echo)))
    else
      if broadcast then
        return (ctx, none)
      let r ← response_error proto frame response 0x03
      return (ctx, some (finalize_response proto r))
  else if func = 6 then
    -- func 6: write single register
    let crcOk ← check_frame_crc proto frame 6
    if !crcOk then
      return (ctx, none)
    let r2 ← frameByte frame (start_frame + 2)
    let r3 ← frameByte frame (start_frame + 3)
    let reg := 256 * r2 + r3
    let v4 ← frameByte frame (start_frame + 4)
    let v5 ← frameByte frame (start_frame + 5)
    let val := 256 * v4 + v5
    let result := context.set reg val ctx.holdings
    let ctx := match result with
      | .ok holdings => { ctx with holdings := holdings }
      | .error _ => ctx
    if broadcast then
      return (ctx, none)
    match result with
    | .error _ =>
        let r ← response_error proto frame response 0x02
        return (ctx, some (finalize_response proto r))
    | .ok _ =>
        let response := response_set_data_len proto response 6
        let echo ← frameSlice frame start_frame (start_frame + 6)
        return (ctx, some (finalize_response proto (response ++ echo)))
  else if func = 0x0f ∨ func = 0x10 then
    -- funcs 15 & 16: write multiple coils / registers
    let bytes ← frameByte frame (start_frame + 6)
    -- the source computes `7 + bytes` in u8; the addition wraps (release profile)
    let crcOk ← check_frame_crc proto frame ((7 + bytes) % 256)
    if !crcOk then
      return (ctx, none)
    if 242 < bytes then
      if broadcast then
        return (ctx, none)
      let r ← response_error proto frame response 0x03
      return (ctx, some (finalize_response proto r))
    let r2 ← frameByte frame (start_frame + 2)
    let r3 ← frameByte frame (start_frame + 3)
    let reg := 256 * r2 + r3
    let c4 ← frameByte frame (start_frame + 4)
    let c5 ← frameByte frame (start_frame + 5)
    let count := 256 * c4 + c5
    let data ← frameSlice frame (start_frame + 7) (start_frame + 7 + bytes)
    let result :=
      if func = 0x0f then
        (context.set_bools_from_u8 reg count data ctx.coils).map
          (fun coils => { ctx with coils := coils })
      else
        (context.set_regs_from_u8 reg data ctx.holdings).map
          (fun holdings => { ctx with holdings := holdings })
    let ctx := match result with
      | .ok c => c
      | .error _ => ctx
    if broadcast then
      return (ctx, none)
    match result with
    | .ok _ =>
        let response := response_set_data_len proto response 6
        let echo ← frameSlice frame start_frame (start_frame + 6)
        return (ctx, some (finalize_response proto (response ++ echo)))
    | .error _ =>
        let r ← response_error proto frame response 0x02
        return (ctx, some (finalize_response proto r))
  else
    let r ← response_error proto frame response 0x01
    return (ctx, some (finalize_response proto r))

/-- Translated from `process_frame` in `src/server.rs`.  The shared mutexed
context becomes explicit state passing: the result pairs the (possibly
mutated) context with the optional reply.  An `Except.error` marks a runtime
panic of the source (out-of-bounds frame index).  The function-code dispatch
chain is split off into `process_frame_dispatch`. -/
def process_frame (unit_id : Nat) (frame : List Nat) (proto : ModbusProto)
    (ctx : ModbusContext) : Except PanicErr (ModbusContext × Option (List Nat)) := do
  if proto = ModbusProto.TcpUdp then
    let h2 ← frameByte frame 2
    let h3 ← frameByte frame 3
    let h4 ← frameByte frame 4
    let h5 ← frameByte frame 5
    let proto_id := 256 * h2 + h3
    let length := 256 * h4 + h5
    if proto_id ≠ 0 ∨ length < 6 then
      return (ctx, none)
  let start_frame := frameStart proto
  let unit ← frameByte frame start_frame
  let broadcast := unit == 0 || unit == 255
  if !broadcast && unit != unit_id % 256 then
    return (ctx, none)
  let response ←
    if !broadcast && proto == ModbusProto.TcpUdp then frameSlice frame 0 4
    else pure []
  let func ← frameByte frame (start_frame + 1)
  process_frame_dispatch frame proto ctx start_frame broadcast response func

/-- A convenience builder: pad a byte list to the full 256-byte frame buffer
with zeros. -/
def mkFrame (xs : List Nat) : List Nat :=
  xs ++ List.replicate (256 - xs.length) 0

/-- A small concrete context for concrete evaluations. -/
def ctx0 : ModbusContext :=
  { coils := List.replicate 16 false
    discretes := List.replicate 16 false
    holdings := List.replicate 16 0
    inputs := List.replicate 16 0 }

/-- Pure value of the RTU checksum gate at a length whose compared bytes are
inside the buffer. -/
def crcPass (proto : ModbusProto) (frame : List Nat) (len : Nat) : Bool :=
  match proto with
  | .TcpUdp => true
  | .Rtu => calc_rtu_crc frame len == fbyte frame len + 256 * fbyte frame (len + 1)

/-- Pure value of the exception-reply builder on a 256-byte frame. -/
def errResponse (proto : ModbusProto) (frame response : List Nat) (err : Nat) : List Nat :=
  match proto with
  | .TcpUdp => response ++ [0, 3, fbyte frame 7, (fbyte frame 8 + 0x80) % 256, err]
  | .Rtu => response ++ [fbyte frame 0, (fbyte frame 1 + 0x80) % 256, err]

theorem exceptBind_ok {α β : Type} (a : α) (f : α → Except PanicErr β) :
    (Except.ok a : Except PanicErr α) >>= f = f a := rfl

theorem exceptBind_err {α β : Type} (e : PanicErr) (f : α → Except PanicErr β) :
    (Except.error e : Except PanicErr α) >>= f = .error e := rfl

theorem exceptPure_bind {α β : Type} (a : α) (f : α → Except PanicErr β) :
    (pure a : Except PanicErr α) >>= f = f a := rfl

theorem frameByte_ok (frame : List Nat) (i : Nat) (hlen : frame.length = 256)
    (hi : i < 256) : frameByte frame i = .ok (fbyte frame i) := by
  simp [frameByte, fbyte, hlen, hi]

theorem frameByte_oob (frame : List Nat) (i : Nat) (hlen : frame.length = 256)
    (hi : 256 ≤ i) : frameByte frame i = .error (.indexOutOfBounds i) := by
  simp only [frameByte, hlen]
  rw [if_neg (by omega)]

theorem frameSlice_ok (frame : List Nat) (a b : Nat) (hlen : frame.length = 256)
    (hb : b ≤ 256) :
    frameSlice frame a b = .ok (((frame.drop a).take (b - a)).map (fun x => x % 256)) := by
  simp [frameSlice, hlen, hb]

theorem check_frame_crc_eq (proto : ModbusProto) (frame : List Nat) (len : Nat)
    (hlen : frame.length = 256) (hl : len ≤ 254) :
    check_frame_crc proto frame len = .ok (crcPass proto frame len) := by
  cases proto with
  | TcpUdp => rfl
  | Rtu =>
      rw [check_frame_crc, frameByte_ok frame len hlen (by omega),
        frameByte_ok frame (len + 1) hlen (by omega)]
      rfl

theorem response_error_eq (proto : ModbusProto) (frame response : List Nat) (err : Nat)
    (hlen : frame.length = 256) :
    response_error proto frame response err = .ok (errResponse proto frame response err) := by
  cases proto with
  | TcpUdp =>
      rw [response_error, frameByte_ok frame 7 hlen (by omega),
        frameByte_ok frame 8 hlen (by omega)]
      rfl
  | Rtu =>
      rw [response_error, frameByte_ok frame 0 hlen (by omega),
        frameByte_ok frame 1 hlen (by omega)]
      rfl

/-- After a valid header and a unit id that is broadcast or the local one,
`process_frame` is the function dispatch on the frame's function code, with
the echo prefix as the initial response. -/
theorem process_frame_eq_dispatch (uid : Nat) (frame : List Nat) (proto : ModbusProto)
    (ctx : ModbusContext) (hlen : frame.length = 256)
    (hhd : headerOk frame proto = true)
    (hu : isBroadcast frame proto = true ∨ unitOf frame proto = uid % 256) :
    process_frame uid frame proto ctx =
      process_frame_dispatch frame proto ctx (frameStart proto)
        (isBroadcast frame proto) (initResponse frame proto (isBroadcast frame proto))
        (funcOf frame proto) := by
  have hskip : ∀ sf : Nat, isBroadcast frame proto = true ∨ unitOf frame proto = uid % 256 →
      sf = frameStart proto →
      (!(fbyte frame sf == 0 || fbyte frame sf == 255) && fbyte frame sf != uid % 256)
        = false := by
    intro sf hu hsf
    subst hsf
    simp only [isBroadcast, unitOf] at hu
    rcases hu with hb | heq
    · rw [hb]; rfl
    · rw [heq]; simp
  cases proto with
  | Rtu =>
      rw [process_frame]
      simp only [frameStart, reduceCtorEq, if_false, exceptPure_bind]
      rw [frameByte_ok frame 0 hlen (by omega), exceptBind_ok]
      rw [hskip 0 hu rfl]
      simp only [Bool.false_eq_true, if_false, exceptPure_bind,
        show (ModbusProto.Rtu == ModbusProto.TcpUdp) = false from rfl, Bool.and_false]
      rw [frameByte_ok frame 1 hlen (by omega), exceptBind_ok]
      have h3 : initResponse frame ModbusProto.Rtu (isBroadcast frame ModbusProto.Rtu)
          = [] := by
        simp [initResponse]
      rw [h3,
        show isBroadcast frame ModbusProto.Rtu
          = (fbyte frame 0 == 0 || fbyte frame 0 == 255) from rfl,
        show funcOf frame ModbusProto.Rtu = fbyte frame 1 from rfl]
  | TcpUdp =>
      rw [process_frame]
      rw [if_pos (rfl : ModbusProto.TcpUdp = ModbusProto.TcpUdp)]
      simp only [frameStart]
      rw [frameByte_ok frame 2 hlen (by omega), exceptBind_ok,
        frameByte_ok frame 3 hlen (by omega), exceptBind_ok,
        frameByte_ok frame 4 hlen (by omega), exceptBind_ok,
        frameByte_ok frame 5 hlen (by omega), exceptBind_ok]
      simp only [headerOk, Bool.and_eq_true, beq_iff_eq, decide_eq_true_eq] at hhd
      have hc : ¬(256 * fbyte frame 2 + fbyte frame 3 ≠ 0
          ∨ 256 * fbyte frame 4 + fbyte frame 5 < 6) := by
        push_neg
        exact ⟨hhd.1, hhd.2⟩
      rw [if_neg hc]
      simp only [exceptPure_bind]
      rw [frameByte_ok frame 6 hlen (by omega), exceptBind_ok]
      rw [hskip 6 hu rfl]
      simp only [Bool.false_eq_true, if_false, exceptPure_bind]
      have hbeq : isBroadcast frame ModbusProto.TcpUdp
          = (fbyte frame 6 == 0 || fbyte frame 6 == 255) := rfl
      by_cases hb : (fbyte frame 6 == 0 || fbyte frame 6 == 255) = true
      · rw [if_neg (c := (!(fbyte frame 6 == 0 || fbyte frame 6 == 255)
            && (ModbusProto.TcpUdp == ModbusProto.TcpUdp)) = true) (by rw [hb]; simp)]
        rw [frameByte_ok frame 7 hlen (by omega), exceptBind_ok]
        have h3 : initResponse frame ModbusProto.TcpUdp (isBroadcast frame ModbusProto.TcpUdp)
            = [] := by
          rw [initResponse, hbeq, hb]
          simp
        rw [h3, hbeq,
          show funcOf frame ModbusProto.TcpUdp = fbyte frame 7 from rfl]
      · rw [if_pos (c := (!(fbyte frame 6 == 0 || fbyte frame 6 == 255)
            && (ModbusProto.TcpUdp == ModbusProto.TcpUdp)) = true)
            (by rw [Bool.eq_false_iff.mpr hb]; rfl)]
        rw [frameSlice_ok frame 0 4 hlen (by omega), exceptBind_ok]
        rw [frameByte_ok frame 7 hlen (by omega), exceptBind_ok]
        have h3 : initResponse frame ModbusProto.TcpUdp (isBroadcast frame ModbusProto.TcpUdp)
            = ((frame.drop 0).take (4 - 0)).map (fun x => x % 256) := by
          rw [initResponse, hbeq, Bool.eq_false_iff.mpr hb]
          simp
        rw [h3, hbeq,
          show funcOf frame ModbusProto.TcpUdp = fbyte frame 7 from rfl]

/-- The n-byte echo slice of the frame starting at the unit id. -/
def echoSlice (frame : List Nat) (sf n : Nat) : List Nat :=
  ((frame.drop sf).take n).map (fun x => x % 256)

/-- A frame whose unit id is neither broadcast nor the local id yields no
reply and leaves the context untouched. -/
theorem process_frame_none_of_foreign (uid : Nat) (frame : List Nat) (proto : ModbusProto)
    (ctx : ModbusContext) (hlen : frame.length = 256)
    (hb : isBroadcast frame proto = false) (hne : unitOf frame proto ≠ uid % 256) :
    process_frame uid frame proto ctx = .ok (ctx, none) := by
  cases proto with
  | Rtu =>
      rw [process_frame]
      simp only [frameStart, reduceCtorEq, if_false, exceptPure_bind]
      rw [frameByte_ok frame 0 hlen (by omega), exceptBind_ok]
      have hcond : (!(fbyte frame 0 == 0 || fbyte frame 0 == 255)
          && fbyte frame 0 != uid % 256) = true := by
        rw [show (fbyte frame 0 == 0 || fbyte frame 0 == 255) = false from hb]
        simp only [Bool.not_false, Bool.true_and, bne_iff_ne, ne_eq]
        exact hne
      rw [if_pos hcond]
      rfl
  | TcpUdp =>
      rw [process_frame]
      rw [if_pos (rfl : ModbusProto.TcpUdp = ModbusProto.TcpUdp)]
      simp only [frameStart]
      rw [frameByte_ok frame 2 hlen (by omega), exceptBind_ok,
        frameByte_ok frame 3 hlen (by omega), exceptBind_ok,
        frameByte_ok frame 4 hlen (by omega), exceptBind_ok,
        frameByte_ok frame 5 hlen (by omega), exceptBind_ok]
      by_cases hhd : 256 * fbyte frame 2 + fbyte frame 3 ≠ 0
          ∨ 256 * fbyte frame 4 + fbyte frame 5 < 6
      · rw [if_pos hhd]
        rfl
      · rw [if_neg hhd]
        simp only [exceptPure_bind]
        rw [frameByte_ok frame 6 hlen (by omega), exceptBind_ok]
        have hcond : (!(fbyte frame 6 == 0 || fbyte frame 6 == 255)
            && fbyte frame 6 != uid % 256) = true := by
          rw [show (fbyte frame 6 == 0 || fbyte frame 6 == 255) = false from hb]
          simp only [Bool.not_false, Bool.true_and, bne_iff_ne, ne_eq]
          exact hne
        rw [if_pos hcond]
        rfl

/-- Characterization of the function-5 (write single coil) branch when the
checksum gate passes. -/
theorem dispatch_func5 (frame : List Nat) (proto : ModbusProto) (ctx : ModbusContext)
    (sf : Nat) (bc : Bool) (resp : List Nat)
    (hlen : frame.length = 256) (hsf : sf ≤ 6)
    (hcrc : crcPass proto frame 6 = true) :
    process_frame_dispatch frame proto ctx sf bc resp 5 =
      (if 256 * fbyte frame (sf + 4) + fbyte frame (sf + 5) = 0xff00
          ∨ 256 * fbyte frame (sf + 4) + fbyte frame (sf + 5) = 0 then
        match context.set (256 * fbyte frame (sf + 2) + fbyte frame (sf + 3))
            (256 * fbyte frame (sf + 4) + fbyte frame (sf + 5) == 0xff00) ctx.coils with
        | .ok coils =>
            if bc then .ok ({ ctx with coils := coils }, none)
            else .ok ({ ctx with coils := coils },
              some (finalize_response proto
                (response_set_data_len proto resp 6 ++ echoSlice frame sf 6)))
        | .error _ =>
            if bc then .ok (ctx, none)
            else .ok (ctx, some (finalize_response proto (errResponse proto frame resp 2)))
      else
        if bc then .ok (ctx, none)
        else .ok (ctx, some (finalize_response proto (errResponse proto frame resp 3)))) := by
  rw [process_frame_dispatch]
  rw [if_neg (show ¬(1 ≤ (5:Nat) ∧ (5:Nat) ≤ 4) from by omega)]
  rw [if_pos (rfl : (5:Nat) = 5)]
  rw [check_frame_crc_eq proto frame 6 hlen (by omega), exceptBind_ok, hcrc]
  simp only [Bool.not_true, Bool.false_eq_true, if_false, exceptPure_bind]
  rw [frameByte_ok frame (sf + 2) hlen (by omega), exceptBind_ok,
    frameByte_ok frame (sf + 3) hlen (by omega), exceptBind_ok,
    frameByte_ok frame (sf + 4) hlen (by omega), exceptBind_ok,
    frameByte_ok frame (sf + 5) hlen (by omega), exceptBind_ok]
  by_cases hword : 256 * fbyte frame (sf + 4) + fbyte frame (sf + 5) = 0xff00
      ∨ 256 * fbyte frame (sf + 4) + fbyte frame (sf + 5) = 0
  · rw [if_pos hword]
    rw [if_pos hword]
    cases hset : context.set (256 * fbyte frame (sf + 2) + fbyte frame (sf + 3))
        (256 * fbyte frame (sf + 4) + fbyte frame (sf + 5) == 0xff00) ctx.coils with
    | ok coils =>
        cases bc with
        | true => rfl
        | false =>
            rw [frameSlice_ok frame sf (sf + 6) hlen (by omega)]
            simp [echoSlice, Nat.add_sub_cancel_left, exceptBind_ok, exceptPure_bind]
    | error e =>
        cases bc with
        | true => rfl
        | false =>
            rw [response_error_eq proto frame resp 2 hlen]
            simp [exceptBind_ok, exceptPure_bind]
  · rw [if_neg hword]
    rw [if_neg hword]
    cases bc with
    | true => rfl
    | false =>
        rw [response_error_eq proto frame resp 3 hlen]
        simp [exceptBind_ok, exceptPure_bind]

/-- The function-5 branch drops the frame when the checksum gate fails. -/
theorem dispatch_func5_crcfail (frame : List Nat) (proto : ModbusProto) (ctx : ModbusContext)
    (sf : Nat) (bc : Bool) (resp : List Nat)
    (hlen : frame.length = 256) (hcrc : crcPass proto frame 6 = false) :
    process_frame_dispatch frame proto ctx sf bc resp 5 = .ok (ctx, none) := by
  rw [process_frame_dispatch]
  rw [if_neg (show ¬(1 ≤ (5:Nat) ∧ (5:Nat) ≤ 4) from by omega)]
  rw [if_pos (rfl : (5:Nat) = 5)]
  rw [check_frame_crc_eq proto frame 6 hlen (by omega), exceptBind_ok, hcrc]
  rfl

/-- Characterization of the function-6 (write single register) branch when the
checksum gate passes. -/
theorem dispatch_func6 (frame : List Nat) (proto : ModbusProto) (ctx : ModbusContext)
    (sf : Nat) (bc : Bool) (resp : List Nat)
    (hlen : frame.length = 256) (hsf : sf ≤ 6)
    (hcrc : crcPass proto frame 6 = true) :
    process_frame_dispatch frame proto ctx sf bc resp 6 =
      (match context.set (256 * fbyte frame (sf + 2) + fbyte frame (sf + 3))
          (256 * fbyte frame (sf + 4) + fbyte frame (sf + 5)) ctx.holdings with
      | .ok holdings =>
          if bc then .ok ({ ctx with holdings := holdings }, none)
          else .ok ({ ctx with holdings := holdings },
            some (finalize_response proto
              (response_set_data_len proto resp 6 ++ echoSlice frame sf 6)))
      | .error _ =>
          if bc then .ok (ctx, none)
          else .ok (ctx, some (finalize_response proto (errResponse proto frame resp 2)))) := by
  rw [process_frame_dispatch]
  rw [if_neg (show ¬(1 ≤ (6:Nat) ∧ (6:Nat) ≤ 4) from by omega)]
  rw [if_neg (show ¬((6:Nat) = 5) from by omega)]
  rw [if_pos (rfl : (6:Nat) = 6)]
  rw [check_frame_crc_eq proto frame 6 hlen (by omega), exceptBind_ok, hcrc]
  simp only [Bool.not_true, Bool.false_eq_true, if_false, exceptPure_bind]
  rw [frameByte_ok frame (sf + 2) hlen (by omega), exceptBind_ok,
    frameByte_ok frame (sf + 3) hlen (by omega), exceptBind_ok,
    frameByte_ok frame (sf + 4) hlen (by omega), exceptBind_ok,
    frameByte_ok frame (sf + 5) hlen (by omega), exceptBind_ok]
  cases hset : context.set (256 * fbyte frame (sf + 2) + fbyte frame (sf + 3))
      (256 * fbyte frame (sf + 4) + fbyte frame (sf + 5)) ctx.holdings with
  | ok holdings =>
      cases bc with
      | true => rfl
      | false =>
          rw [frameSlice_ok frame sf (sf + 6) hlen (by omega)]
          simp [echoSlice, Nat.add_sub_cancel_left, exceptBind_ok, exceptPure_bind]
  | error e =>
      cases bc with
      | true => rfl
      | false =>
          rw [response_error_eq proto frame resp 2 hlen]
          simp [exceptBind_ok, exceptPure_bind]

/-- The function-6 branch drops the frame when the checksum gate fails. -/
theorem dispatch_func6_crcfail (frame : List Nat) (proto : ModbusProto) (ctx : ModbusContext)
    (sf : Nat) (bc : Bool) (resp : List Nat)
    (hlen : frame.length = 256) (hcrc : crcPass proto frame 6 = false) :
    process_frame_dispatch frame proto ctx sf bc resp 6 = .ok (ctx, none) := by
  rw [process_frame_dispatch]
  rw [if_neg (show ¬(1 ≤ (6:Nat) ∧ (6:Nat) ≤ 4) from by omega)]
  rw [if_neg (show ¬((6:Nat) = 5) from by omega)]
  rw [if_pos (rfl : (6:Nat) = 6)]
  rw [check_frame_crc_eq proto frame 6 hlen (by omega), exceptBind_ok, hcrc]
  rfl

/-- Broadcast read requests (functions 1-4) are dropped. -/
theorem dispatch_read_bc (frame : List Nat) (proto : ModbusProto) (ctx : ModbusContext)
    (sf : Nat) (resp : List Nat) (func : Nat)
    (h1 : 1 ≤ func) (h4 : func ≤ 4) :
    process_frame_dispatch frame proto ctx sf true resp func = .ok (ctx, none) := by
  rw [process_frame_dispatch]
  rw [if_pos (And.intro h1 h4)]
  rfl

/-- Non-broadcast read requests are dropped when the checksum gate fails. -/
theorem dispatch_read_crcfail (frame : List Nat) (proto : ModbusProto) (ctx : ModbusContext)
    (sf : Nat) (resp : List Nat) (func : Nat)
    (h1 : 1 ≤ func) (h4 : func ≤ 4)
    (hlen : frame.length = 256) (hcrc : crcPass proto frame 6 = false) :
    process_frame_dispatch frame proto ctx sf false resp func = .ok (ctx, none) := by
  rw [process_frame_dispatch]
  rw [if_pos (And.intro h1 h4)]
  simp only [Bool.false_eq_true, if_false, exceptPure_bind]
  rw [check_frame_crc_eq proto frame 6 hlen (by omega), exceptBind_ok, hcrc]
  rfl

/-- Characterization of the non-broadcast read branch (functions 1-4) when the
checksum gate passes. -/
theorem dispatch_read (frame : List Nat) (proto : ModbusProto) (ctx : ModbusContext)
    (sf : Nat) (resp : List Nat) (func : Nat)
    (h1 : 1 ≤ func) (h4 : func ≤ 4)
    (hlen : frame.length = 256) (hsf : sf ≤ 6)
    (hcrc : crcPass proto frame 6 = true) :
    process_frame_dispatch frame proto ctx sf false resp func =
      (if ((func = 1 ∨ func = 2) ∧ 2000 < 256 * fbyte frame (sf + 4) + fbyte frame (sf + 5))
          ∨ ((func = 3 ∨ func = 4) ∧ 125 < 256 * fbyte frame (sf + 4) + fbyte frame (sf + 5)) then
        .ok (ctx, some (finalize_response proto (errResponse proto frame resp 3)))
      else
        match (if func = 1 then
            context.get_bools_as_u8 (256 * fbyte frame (sf + 2) + fbyte frame (sf + 3))
              (256 * fbyte frame (sf + 4) + fbyte frame (sf + 5)) ctx.coils
          else if func = 2 then
            context.get_bools_as_u8 (256 * fbyte frame (sf + 2) + fbyte frame (sf + 3))
              (256 * fbyte frame (sf + 4) + fbyte frame (sf + 5)) ctx.discretes
          else if func = 3 then
            context.get_regs_as_u8 (256 * fbyte frame (sf + 2) + fbyte frame (sf + 3))
              (256 * fbyte frame (sf + 4) + fbyte frame (sf + 5)) ctx.holdings
          else
            context.get_regs_as_u8 (256 * fbyte frame (sf + 2) + fbyte frame (sf + 3))
              (256 * fbyte frame (sf + 4) + fbyte frame (sf + 5)) ctx.inputs) with
        | .ok data =>
            .ok (ctx, some (finalize_response proto
              (response_set_data_len proto resp (data.length + 3) ++ echoSlice frame sf 2
                ++ [data.length % 256] ++ data)))
        | .error _ =>
            .ok (ctx, some (finalize_response proto (errResponse proto frame resp 2)))) := by
  rw [process_frame_dispatch]
  rw [if_pos (And.intro h1 h4)]
  simp only [Bool.false_eq_true, if_false, exceptPure_bind]
  rw [check_frame_crc_eq proto frame 6 hlen (by omega), exceptBind_ok, hcrc]
  simp only [Bool.not_true, Bool.false_eq_true, if_false, exceptPure_bind]
  rw [frameByte_ok frame (sf + 4) hlen (by omega), exceptBind_ok,
    frameByte_ok frame (sf + 5) hlen (by omega), exceptBind_ok]
  by_cases hbig : ((func = 1 ∨ func = 2) ∧ 2000 < 256 * fbyte frame (sf + 4) + fbyte frame (sf + 5))
      ∨ ((func = 3 ∨ func = 4) ∧ 125 < 256 * fbyte frame (sf + 4) + fbyte frame (sf + 5))
  · rw [if_pos hbig]
    rw [if_pos hbig]
    rw [response_error_eq proto frame resp 3 hlen]
    simp [exceptBind_ok, exceptPure_bind]
  · rw [if_neg hbig]
    rw [if_neg hbig]
    rw [frameByte_ok frame (sf + 2) hlen (by omega), exceptBind_ok,
      frameByte_ok frame (sf + 3) hlen (by omega), exceptBind_ok]
    cases hres : (if func = 1 then
        context.get_bools_as_u8 (256 * fbyte frame (sf + 2) + fbyte frame (sf + 3))
          (256 * fbyte frame (sf + 4) + fbyte frame (sf + 5)) ctx.coils
      else if func = 2 then
        context.get_bools_as_u8 (256 * fbyte frame (sf + 2) + fbyte frame (sf + 3))
          (256 * fbyte frame (sf + 4) + fbyte frame (sf + 5)) ctx.discretes
      else if func = 3 then
        context.get_regs_as_u8 (256 * fbyte frame (sf + 2) + fbyte frame (sf + 3))
          (256 * fbyte frame (sf + 4) + fbyte frame (sf + 5)) ctx.holdings
      else
        context.get_regs_as_u8 (256 * fbyte frame (sf + 2) + fbyte frame (sf + 3))
          (256 * fbyte frame (sf + 4) + fbyte frame (sf + 5)) ctx.inputs) with
    | ok data =>
        rw [frameSlice_ok frame sf (sf + 2) hlen (by omega)]
        simp [echoSlice, Nat.add_sub_cancel_left, exceptBind_ok, exceptPure_bind]
    | error e =>
        rw [response_error_eq proto frame resp 2 hlen]
        simp [exceptBind_ok, exceptPure_bind]

/-- An unsupported function code is always answered with exception 0x01,
without any checksum verification and also for broadcast frames. -/
theorem dispatch_unknown (frame : List Nat) (proto : ModbusProto) (ctx : ModbusContext)
    (sf : Nat) (bc : Bool) (resp : List Nat) (func : Nat)
    (hlen : frame.length = 256)
    (h14 : ¬(1 ≤ func ∧ func ≤ 4)) (h5 : func ≠ 5) (h6 : func ≠ 6)
    (h15 : func ≠ 15) (h16 : func ≠ 16) :
    process_frame_dispatch frame proto ctx sf bc resp func =
      .ok (ctx, some (finalize_response proto (errResponse proto frame resp 1))) := by
  rw [process_frame_dispatch]
  rw [if_neg h14, if_neg h5, if_neg h6,
    if_neg (show ¬(func = 15 ∨ func = 16) from by omega)]
  rw [response_error_eq proto frame resp 1 hlen]
  rfl

/-- The wire payload of a function 15/16 request: the declared number of bytes
following the byte-count field. -/
def dataSlice (frame : List Nat) (sf bytes : Nat) : List Nat :=
  ((frame.drop (sf + 7)).take bytes).map (fun x => x % 256)

/-- The functions 15/16 branch propagates a panic of the checksum gate (the
gate is evaluated before the byte-count limit is checked). -/
theorem dispatch_wmulti_gate_err (frame : List Nat) (proto : ModbusProto)
    (ctx : ModbusContext) (sf : Nat) (bc : Bool) (resp : List Nat) (func : Nat)
    (e : PanicErr) (hlen : frame.length = 256) (hsf : sf ≤ 6)
    (hf : func = 15 ∨ func = 16)
    (hgate : check_frame_crc proto frame ((7 + fbyte frame (sf + 6)) % 256) = .error e) :
    process_frame_dispatch frame proto ctx sf bc resp func = .error e := by
  rw [process_frame_dispatch]
  rw [if_neg (show ¬(1 ≤ func ∧ func ≤ 4) from by omega),
    if_neg (show ¬(func = 5) from by omega),
    if_neg (show ¬(func = 6) from by omega),
    if_pos hf]
  rw [frameByte_ok frame (sf + 6) hlen (by omega), exceptBind_ok, hgate]
  rfl

/-- The functions 15/16 branch drops the frame when the checksum gate fails. -/
theorem dispatch_wmulti_crcfail (frame : List Nat) (proto : ModbusProto)
    (ctx : ModbusContext) (sf : Nat) (bc : Bool) (resp : List Nat) (func : Nat)
    (hlen : frame.length = 256) (hsf : sf ≤ 6)
    (hf : func = 15 ∨ func = 16)
    (hgate : check_frame_crc proto frame ((7 + fbyte frame (sf + 6)) % 256) = .ok false) :
    process_frame_dispatch frame proto ctx sf bc resp func = .ok (ctx, none) := by
  rw [process_frame_dispatch]
  rw [if_neg (show ¬(1 ≤ func ∧ func ≤ 4) from by omega),
    if_neg (show ¬(func = 5) from by omega),
    if_neg (show ¬(func = 6) from by omega),
    if_pos hf]
  rw [frameByte_ok frame (sf + 6) hlen (by omega), exceptBind_ok, hgate, exceptBind_ok]
  rfl

/-- Characterization of the oversized-payload case of functions 15/16: once
the checksum gate passes, a byte count above 242 is answered with exception
0x03, or dropped for broadcast frames, before any context access. -/
theorem dispatch_wmulti_oversize (frame : List Nat) (proto : ModbusProto)
    (ctx : ModbusContext) (sf : Nat) (bc : Bool) (resp : List Nat) (func : Nat)
    (hlen : frame.length = 256) (hsf : sf ≤ 6)
    (hf : func = 15 ∨ func = 16)
    (hgate : check_frame_crc proto frame ((7 + fbyte frame (sf + 6)) % 256) = .ok true)
    (hbig : 242 < fbyte frame (sf + 6)) :
    process_frame_dispatch frame proto ctx sf bc resp func =
      (if bc then .ok (ctx, none)
       else .ok (ctx, some (finalize_response proto (errResponse proto frame resp 3)))) := by
  rw [process_frame_dispatch]
  rw [if_neg (show ¬(1 ≤ func ∧ func ≤ 4) from by omega),
    if_neg (show ¬(func = 5) from by omega),
    if_neg (show ¬(func = 6) from by omega),
    if_pos hf]
  rw [frameByte_ok frame (sf + 6) hlen (by omega), exceptBind_ok, hgate, exceptBind_ok]
  simp only [Bool.not_true, Bool.false_eq_true, if_false, exceptPure_bind]
  rw [if_pos hbig]
  cases bc with
  | true => rfl
  | false =>
      rw [response_error_eq proto frame resp 3 hlen]
      simp [exceptBind_ok, exceptPure_bind]

/-- Characterization of the function-15 (write multiple coils) branch when the
checksum gate passes and the byte count is within the limit. -/
theorem dispatch_func15 (frame : List Nat) (proto : ModbusProto)
    (ctx : ModbusContext) (sf : Nat) (bc : Bool) (resp : List Nat)
    (hlen : frame.length = 256) (hsf : sf ≤ 6)
    (hgate : check_frame_crc proto frame ((7 + fbyte frame (sf + 6)) % 256) = .ok true)
    (hsmall : fbyte frame (sf + 6) ≤ 242) :
    process_frame_dispatch frame proto ctx sf bc resp 15 =
      (match context.set_bools_from_u8 (256 * fbyte frame (sf + 2) + fbyte frame (sf + 3))
          (256 * fbyte frame (sf + 4) + fbyte frame (sf + 5))
          (dataSlice frame sf (fbyte frame (sf + 6))) ctx.coils with
      | .ok coils =>
          if bc then .ok ({ ctx with coils := coils }, none)
          else .ok ({ ctx with coils := coils },
            some (finalize_response proto
              (response_set_data_len proto resp 6 ++ echoSlice frame sf 6)))
      | .error _ =>
          if bc then .ok (ctx, none)
          else .ok (ctx, some (finalize_response proto (errResponse proto frame resp 2)))) := by
  rw [process_frame_dispatch]
  rw [if_neg (show ¬(1 ≤ (15:Nat) ∧ (15:Nat) ≤ 4) from by omega),
    if_neg (show ¬((15:Nat) = 5) from by omega),
    if_neg (show ¬((15:Nat) = 6) from by omega),
    if_pos (show (15:Nat) = 15 ∨ (15:Nat) = 16 from Or.inl rfl)]
  rw [frameByte_ok frame (sf + 6) hlen (by omega), exceptBind_ok, hgate, exceptBind_ok]
  simp only [Bool.not_true, Bool.false_eq_true, if_false, exceptPure_bind]
  rw [if_neg (show ¬(242 < fbyte frame (sf + 6)) from by omega)]
  rw [frameByte_ok frame (sf + 2) hlen (by omega), exceptBind_ok,
    frameByte_ok frame (sf + 3) hlen (by omega), exceptBind_ok,
    frameByte_ok frame (sf + 4) hlen (by omega), exceptBind_ok,
    frameByte_ok frame (sf + 5) hlen (by omega), exceptBind_ok]
  rw [frameSlice_ok frame (sf + 7) (sf + 7 + fbyte frame (sf + 6)) hlen (by omega),
    exceptBind_ok]
  rw [if_pos trivial]
  rw [show sf + 7 + fbyte frame (sf + 6) - (sf + 7) = fbyte frame (sf + 6) from by omega]
  rw [show List.map (fun x => x % 256)
      (List.take (fbyte frame (sf + 6)) (List.drop (sf + 7) frame))
    = dataSlice frame sf (fbyte frame (sf + 6)) from rfl]
  cases hset : context.set_bools_from_u8 (256 * fbyte frame (sf + 2) + fbyte frame (sf + 3))
      (256 * fbyte frame (sf + 4) + fbyte frame (sf + 5))
      (dataSlice frame sf (fbyte frame (sf + 6))) ctx.coils with
  | ok coils =>
      cases bc with
      | true => rfl
      | false =>
          rw [frameSlice_ok frame sf (sf + 6) hlen (by omega)]
          simp [Except.map, echoSlice, Nat.add_sub_cancel_left, exceptBind_ok, exceptPure_bind]
  | error e =>
      cases bc with
      | true => rfl
      | false =>
          rw [response_error_eq proto frame resp 2 hlen]
          simp [Except.map, exceptBind_ok, exceptPure_bind]

/-- Characterization of the function-16 (write multiple registers) branch when
the checksum gate passes and the byte count is within the limit. -/
theorem dispatch_func16 (frame : List Nat) (proto : ModbusProto)
    (ctx : ModbusContext) (sf : Nat) (bc : Bool) (resp : List Nat)
    (hlen : frame.length = 256) (hsf : sf ≤ 6)
    (hgate : check_frame_crc proto frame ((7 + fbyte frame (sf + 6)) % 256) = .ok true)
    (hsmall : fbyte frame (sf + 6) ≤ 242) :
    process_frame_dispatch frame proto ctx sf bc resp 16 =
      (match context.set_regs_from_u8 (256 * fbyte frame (sf + 2) + fbyte frame (sf + 3))
          (dataSlice frame sf (fbyte frame (sf + 6))) ctx.holdings with
      | .ok holdings =>
          if bc then .ok ({ ctx with holdings := holdings }, none)
          else .ok ({ ctx with holdings := holdings },
            some (finalize_response proto
              (response_set_data_len proto resp 6 ++ echoSlice frame sf 6)))
      | .error _ =>
          if bc then .ok (ctx, none)
          else .ok (ctx, some (finalize_response proto (errResponse proto frame resp 2)))) := by
  rw [process_frame_dispatch]
  rw [if_neg (show ¬(1 ≤ (16:Nat) ∧ (16:Nat) ≤ 4) from by omega),
    if_neg (show ¬((16:Nat) = 5) from by omega),
    if_neg (show ¬((16:Nat) = 6) from by omega),
    if_pos (show (16:Nat) = 15 ∨ (16:Nat) = 16 from Or.inr rfl)]
  rw [frameByte_ok frame (sf + 6) hlen (by omega), exceptBind_ok, hgate, exceptBind_ok]
  simp only [Bool.not_true, Bool.false_eq_true, if_false, exceptPure_bind]
  rw [if_neg (show ¬(242 < fbyte frame (sf + 6)) from by omega)]
  rw [frameByte_ok frame (sf + 2) hlen (by omega), exceptBind_ok,
    frameByte_ok frame (sf + 3) hlen (by omega), exceptBind_ok,
    frameByte_ok frame (sf + 4) hlen (by omega), exceptBind_ok,
    frameByte_ok frame (sf + 5) hlen (by omega), exceptBind_ok]
  rw [frameSlice_ok frame (sf + 7) (sf + 7 + fbyte frame (sf + 6)) hlen (by omega),
    exceptBind_ok]
  rw [if_neg (show ¬((16:Nat) = 15) from by omega)]
  rw [show sf + 7 + fbyte frame (sf + 6) - (sf + 7) = fbyte frame (sf + 6) from by omega]
  rw [show List.map (fun x => x % 256)
      (List.take (fbyte frame (sf + 6)) (List.drop (sf + 7) frame))
    = dataSlice frame sf (fbyte frame (sf + 6)) from rfl]
  cases hset : context.set_regs_from_u8 (256 * fbyte frame (sf + 2) + fbyte frame (sf + 3))
      (dataSlice frame sf (fbyte frame (sf + 6))) ctx.holdings with
  | ok holdings =>
      cases bc with
      | true => rfl
      | false =>
          rw [frameSlice_ok frame sf (sf + 6) hlen (by omega)]
          simp [Except.map, echoSlice, Nat.add_sub_cancel_left, exceptBind_ok, exceptPure_bind]
  | error e =>
      cases bc with
      | true => rfl
      | false =>
          rw [response_error_eq proto frame resp 2 hlen]
          simp [Except.map, exceptBind_ok, exceptPure_bind]

/-- Modelled from the spec (section 4.1): one shift round of the standard
Modbus RTU checksum — shift right one bit, xor the polynomial 0xA001 when the
bit shifted out was set. -/
def specCrcRound (crc : Nat) : Nat :=
  if Nat.testBit crc 0 then Nat.xor (crc / 2) 0xA001 else crc / 2

/-- Modelled from the spec (section 4.1): absorb one byte — xor it into the
accumulator, then eight least-significant-bit-first shift rounds. -/
def specCrcByte (crc b : Nat) : Nat :=
  (List.range 8).foldl (fun c _ => specCrcRound c) (Nat.xor crc b)

/-- Modelled from the spec (section 4.1): the standard Modbus RTU checksum of
a byte sequence, starting from 0xFFFF. -/
def specModbusCrc (bytes : List Nat) : Nat :=
  bytes.foldl specCrcByte 0xffff

theorem specCrcRound_eq_crcRound : specCrcRound = crcRound := by
  funext c
  simp [specCrcRound, crcRound, Nat.testBit_zero]

theorem specCrcByte_eq (c b : Nat) : specCrcByte c b = crcRounds 8 (Nat.xor c b) := by
  rw [specCrcByte, specCrcRound_eq_crcRound]
  rfl

theorem calc_rtu_crc_eq_spec (frame : List Nat) (len : Nat) (hl : len ≤ frame.length) :
    calc_rtu_crc frame len = specModbusCrc ((frame.take len).map (fun x => x % 256)) := by
  induction len with
  | zero => rfl
  | succ n ih =>
      have hn : n < frame.length := by omega
      have hstep : calc_rtu_crc frame (n + 1)
          = crcRounds 8 (Nat.xor (calc_rtu_crc frame n) (frame.getD n 0 % 256)) := by
        simp only [calc_rtu_crc, List.range_succ, List.foldl_append, List.foldl_cons,
          List.foldl_nil]
      rw [hstep, ih (by omega)]
      have htake := (List.take_concat_get' frame n hn).symm
      rw [htake]
      simp only [specModbusCrc, List.map_append, List.foldl_append, List.map_cons,
        List.map_nil, List.foldl_cons, List.foldl_nil]
      rw [specCrcByte_eq]
      rw [List.getD_eq_getElem frame 0 hn]

/-- C5: calc_rtu_crc computes the standard Modbus RTU checksum — it agrees
with the spec-worded algorithm (initial 0xFFFF, xor each byte, eight
LSB-first shift rounds with polynomial 0xA001) on every prefix, and its value
over the reference vector 01 03 00 00 00 0A is the documented 0xCDC5
(bytes C5 CD appended little-endian). -/
theorem c5_calc_rtu_crc_standard :
    (∀ (frame : List Nat) (len : Nat), len ≤ frame.length →
      calc_rtu_crc frame len = specModbusCrc ((frame.take len).map (fun x => x % 256)))
    ∧ calc_rtu_crc [1, 3, 0, 0, 0, 10] 6 = 0xCDC5 :=
  ⟨calc_rtu_crc_eq_spec, by decide⟩

/-- Witness for C5 at the reference vector. -/
theorem c5_witness :
    calc_rtu_crc [1, 3, 0, 0, 0, 10] 6
      = specModbusCrc (([1, 3, 0, 0, 0, 10].take 6).map (fun x => x % 256))
    ∧ calc_rtu_crc [1, 3, 0, 0, 0, 10] 6 = 0xCDC5 :=
  ⟨c5_calc_rtu_crc_standard.1 [1, 3, 0, 0, 0, 10] 6 (by decide),
    c5_calc_rtu_crc_standard.2⟩

/-- C1: the exception reply for an oversized read count does not echo the
request's unit id and function code for TCP/UDP.  At unit 1, function 3,
count 126, the reply body is [0x03, 0x80, 0x03] — frame byte 7 (the function
code) where the unit id belongs and frame byte 8 + 0x80 (the address high
byte) where function|0x80 belongs — instead of the [0x01, 0x83, 0x03] the
claim and the spec state (the divergence spec section 9 flags as a latent
defect). -/
theorem c1_read_count_exception_reply_divergence :
    process_frame 1 (mkFrame [0, 1, 0, 0, 0, 6, 1, 3, 0, 0, 0, 126]) ModbusProto.TcpUdp ctx0
        = .ok (ctx0, some [0, 1, 0, 0, 0, 3, 3, 128, 3])
    ∧ [0, 1, 0, 0, 0, 3, 3, 128, 3] ≠ [0, 1, 0, 0, 0, 3, 1, 131, 3] :=
  ⟨by rfl, by decide⟩

/-- C2: at an RTU function-15 frame with declared payload byte count 248, the
checksum gate computes its length as 7 + 248 = 255 and reads frame[255] and
frame[256]; the latter is out of the 256-byte buffer, so process_frame
panics instead of evaluating totally. -/
theorem c2_frame_index_panic_at_byte_count_248 :
    process_frame 1 (mkFrame [1, 15, 0, 0, 0, 0, 248]) ModbusProto.Rtu ctx0
      = .error (.indexOutOfBounds 256) := by rfl

/-- C3 counterexample: an RTU frame with the unsupported function code 7 whose
checksum bytes (zero) do not match the computed checksum is still answered
with an exception-0x01 reply — the unknown-function branch never verifies the
checksum, so the claim's "for every function code" fails. -/
theorem c3_counterexample_unknown_function_replies_despite_bad_crc :
    check_frame_crc ModbusProto.Rtu (mkFrame [1, 7]) 6 = .ok false
    ∧ process_frame 1 (mkFrame [1, 7]) ModbusProto.Rtu ctx0
        = .ok (ctx0, some [1, 135, 1, 130, 48]) :=
  ⟨by rfl, by rfl⟩

/-- C6: a frame whose unit id byte is neither 0 nor 255 nor the local unit id
is ignored: no reply and no mutation of any register bank. -/
theorem c6_foreign_unit_no_reply_no_mutation (uid : Nat) (frame : List Nat)
    (proto : ModbusProto) (ctx : ModbusContext) (hlen : frame.length = 256)
    (h0 : unitOf frame proto ≠ 0) (h255 : unitOf frame proto ≠ 255)
    (hne : unitOf frame proto ≠ uid % 256) :
    process_frame uid frame proto ctx = .ok (ctx, none) := by
  apply process_frame_none_of_foreign uid frame proto ctx hlen _ hne
  simp only [isBroadcast, Bool.or_eq_false_iff, beq_eq_false_iff_ne, ne_eq]
  exact ⟨h0, h255⟩

/-- Witness for C6: unit byte 5 with local unit id 1. -/
theorem c6_witness :
    process_frame 1 (mkFrame [5, 3, 0, 0, 0, 1]) ModbusProto.Rtu ctx0 = .ok (ctx0, none) :=
  c6_foreign_unit_no_reply_no_mutation 1 (mkFrame [5, 3, 0, 0, 0, 1]) ModbusProto.Rtu ctx0
    (by rfl) (by decide) (by decide) (by decide)

theorem frameStart_le (proto : ModbusProto) : frameStart proto ≤ 6 := by
  cases proto <;> decide

theorem headerOk_rtu (frame : List Nat) : headerOk frame ModbusProto.Rtu = true := rfl

/-- C3 amended: an RTU frame with an implemented function code (1-6, 15, 16)
whose checksum check fails is dropped — no reply and no mutation.  (Frames
with any other function code are answered with exception 0x01 without any
checksum verification, see the counterexample.) -/
theorem c3_amended_bad_crc_drops_implemented_functions (uid : Nat) (frame : List Nat)
    (ctx : ModbusContext) (hlen : frame.length = 256) :
    ((1 ≤ fbyte frame 1 ∧ fbyte frame 1 ≤ 6) →
      check_frame_crc ModbusProto.Rtu frame 6 = .ok false →
      process_frame uid frame ModbusProto.Rtu ctx = .ok (ctx, none))
    ∧ ((fbyte frame 1 = 15 ∨ fbyte frame 1 = 16) →
      check_frame_crc ModbusProto.Rtu frame ((7 + fbyte frame 6) % 256) = .ok false →
      process_frame uid frame ModbusProto.Rtu ctx = .ok (ctx, none)) := by
  have hdisp : isBroadcast frame ModbusProto.Rtu = true
      ∨ unitOf frame ModbusProto.Rtu = uid % 256 →
      process_frame uid frame ModbusProto.Rtu ctx =
        process_frame_dispatch frame ModbusProto.Rtu ctx 0
          (isBroadcast frame ModbusProto.Rtu)
          (initResponse frame ModbusProto.Rtu (isBroadcast frame ModbusProto.Rtu))
          (fbyte frame 1) := fun hu =>
    process_frame_eq_dispatch uid frame ModbusProto.Rtu ctx hlen rfl hu
  constructor
  · intro hf hc
    have hp : crcPass ModbusProto.Rtu frame 6 = false :=
      Except.ok.inj ((check_frame_crc_eq ModbusProto.Rtu frame 6 hlen (by omega)).symm.trans hc)
    by_cases hu : isBroadcast frame ModbusProto.Rtu = true
        ∨ unitOf frame ModbusProto.Rtu = uid % 256
    · rw [hdisp hu]
      by_cases hf4 : fbyte frame 1 ≤ 4
      · cases hbc : isBroadcast frame ModbusProto.Rtu with
        | true => exact dispatch_read_bc frame ModbusProto.Rtu ctx 0 _ _ hf.1 hf4
        | false => exact dispatch_read_crcfail frame ModbusProto.Rtu ctx 0 _ _ hf.1 hf4 hlen hp
      · have h56 : fbyte frame 1 = 5 ∨ fbyte frame 1 = 6 := by omega
        rcases h56 with h5 | h6
        · rw [h5]
          exact dispatch_func5_crcfail frame ModbusProto.Rtu ctx 0 _ _ hlen hp
        · rw [h6]
          exact dispatch_func6_crcfail frame ModbusProto.Rtu ctx 0 _ _ hlen hp
    · push_neg at hu
      exact process_frame_none_of_foreign uid frame ModbusProto.Rtu ctx hlen
        (Bool.eq_false_iff.mpr hu.1) hu.2
  · intro hf hc
    by_cases hu : isBroadcast frame ModbusProto.Rtu = true
        ∨ unitOf frame ModbusProto.Rtu = uid % 256
    · rw [hdisp hu]
      exact dispatch_wmulti_crcfail frame ModbusProto.Rtu ctx 0 _ _ (fbyte frame 1)
        hlen (by omega) hf hc
    · push_neg at hu
      exact process_frame_none_of_foreign uid frame ModbusProto.Rtu ctx hlen
        (Bool.eq_false_iff.mpr hu.1) hu.2

/-- Witness for the amended C3: an RTU read request for unit 1 whose zeroed
trailing checksum does not match is dropped. -/
theorem c3_amended_witness :
    process_frame 1 (mkFrame [1, 3, 0, 0, 0, 1]) ModbusProto.Rtu ctx0 = .ok (ctx0, none) :=
  (c3_amended_bad_crc_drops_implemented_functions 1 (mkFrame [1, 3, 0, 0, 0, 1]) ctx0
    (by rfl)).1 (by decide) (by rfl)

/-- C4 counterexample: a non-broadcast RTU function-15 frame with declared
byte count 255 (above the 242 limit) whose checksum check fails (it is
evaluated first, over (7 + 255) mod 256 = 6 bytes) is dropped with no reply —
not answered with exception 0x03 as the claim, which omits the checksum gate,
states. -/
theorem c4_counterexample_oversize_with_bad_crc_dropped :
    242 < fbyte (mkFrame [1, 15, 0, 0, 0, 0, 255]) 6
    ∧ process_frame 1 (mkFrame [1, 15, 0, 0, 0, 0, 255]) ModbusProto.Rtu ctx0
        = .ok (ctx0, none) :=
  ⟨by decide, by rfl⟩

/-- C4 amended: for a function 15/16 request whose checksum gate (checked
first, over (7 + byte count) mod 256 bytes for RTU) passes, a declared byte
count above 242 is answered with exception 0x03 when non-broadcast, and
dropped with no reply and no context access when broadcast. -/
theorem c4_amended_oversize_requires_crc_pass (proto : ModbusProto) (uid : Nat)
    (frame : List Nat) (ctx : ModbusContext) (hlen : frame.length = 256)
    (hhd : headerOk frame proto = true)
    (hf : funcOf frame proto = 15 ∨ funcOf frame proto = 16)
    (hgate : check_frame_crc proto frame
      ((7 + fbyte frame (frameStart proto + 6)) % 256) = .ok true)
    (hbig : 242 < fbyte frame (frameStart proto + 6)) :
    (isBroadcast frame proto = true → process_frame uid frame proto ctx = .ok (ctx, none))
    ∧ (isBroadcast frame proto = false → unitOf frame proto = uid % 256 →
        process_frame uid frame proto ctx = .ok (ctx,
          some (finalize_response proto
            (errResponse proto frame (initResponse frame proto false) 3)))) := by
  constructor
  · intro hbc
    rw [process_frame_eq_dispatch uid frame proto ctx hlen hhd (Or.inl hbc)]
    rw [hbc]
    rw [dispatch_wmulti_oversize frame proto ctx (frameStart proto) true
      (initResponse frame proto true) (funcOf frame proto) hlen (frameStart_le proto)
      hf hgate hbig]
    rfl
  · intro hbc huid
    rw [process_frame_eq_dispatch uid frame proto ctx hlen hhd (Or.inr huid)]
    rw [hbc]
    rw [dispatch_wmulti_oversize frame proto ctx (frameStart proto) false
      (initResponse frame proto false) (funcOf frame proto) hlen (frameStart_le proto)
      hf hgate hbig]
    rfl

/-- Witness for the amended C4: a TCP function-15 request for unit 1 with
byte count 243 is answered with the exception-0x03 reply. -/
theorem c4_amended_witness :
    process_frame 1 (mkFrame [0, 0, 0, 0, 0, 7, 1, 15, 0, 0, 0, 8, 243])
        ModbusProto.TcpUdp ctx0
      = .ok (ctx0, some [0, 0, 0, 0, 0, 3, 15, 128, 3]) :=
  ((c4_amended_oversize_requires_crc_pass ModbusProto.TcpUdp 1
    (mkFrame [0, 0, 0, 0, 0, 7, 1, 15, 0, 0, 0, 8, 243]) ctx0 (by rfl) (by decide)
    (Or.inl (by decide)) (by rfl) (by decide)).2 (by decide) (by decide)).trans (by rfl)

/-- C7: a broadcast write request (functions 6, 15, 16) that passes the
checksum gate and whose fields are within limits performs the write to the
register context but returns None — no reply bytes at all. -/
theorem c7_broadcast_write_mutates_without_reply (proto : ModbusProto) (uid : Nat)
    (frame : List Nat) (ctx : ModbusContext) (hlen : frame.length = 256)
    (hhd : headerOk frame proto = true) (hbc : isBroadcast frame proto = true) :
    (funcOf frame proto = 6 → crcPass proto frame 6 = true →
      256 * fbyte frame (frameStart proto + 2) + fbyte frame (frameStart proto + 3)
        < ctx.holdings.length →
      process_frame uid frame proto ctx = .ok ({ ctx with holdings := (ctx.holdings.set
        (256 * fbyte frame (frameStart proto + 2) + fbyte frame (frameStart proto + 3))
        (256 * fbyte frame (frameStart proto + 4) + fbyte frame (frameStart proto + 5))) },
        none))
    ∧ (funcOf frame proto = 15 →
      check_frame_crc proto frame
        ((7 + fbyte frame (frameStart proto + 6)) % 256) = .ok true →
      fbyte frame (frameStart proto + 6) ≤ 242 →
      256 * fbyte frame (frameStart proto + 2) + fbyte frame (frameStart proto + 3)
          + (256 * fbyte frame (frameStart proto + 4) + fbyte frame (frameStart proto + 5))
        ≤ ctx.coils.length →
      ∃ coils, context.set_bools_from_u8
          (256 * fbyte frame (frameStart proto + 2) + fbyte frame (frameStart proto + 3))
          (256 * fbyte frame (frameStart proto + 4) + fbyte frame (frameStart proto + 5))
          (dataSlice frame (frameStart proto) (fbyte frame (frameStart proto + 6)))
          ctx.coils = .ok coils
        ∧ process_frame uid frame proto ctx = .ok ({ ctx with coils := coils }, none))
    ∧ (funcOf frame proto = 16 →
      check_frame_crc proto frame
        ((7 + fbyte frame (frameStart proto + 6)) % 256) = .ok true →
      fbyte frame (frameStart proto + 6) ≤ 242 →
      256 * fbyte frame (frameStart proto + 2) + fbyte frame (frameStart proto + 3)
          + (dataSlice frame (frameStart proto) (fbyte frame (frameStart proto + 6))).length / 2
        ≤ ctx.holdings.length →
      ∃ holdings, context.set_regs_from_u8
          (256 * fbyte frame (frameStart proto + 2) + fbyte frame (frameStart proto + 3))
          (dataSlice frame (frameStart proto) (fbyte frame (frameStart proto + 6)))
          ctx.holdings = .ok holdings
        ∧ process_frame uid frame proto ctx = .ok ({ ctx with holdings := holdings }, none)) := by
  refine ⟨?_, ?_, ?_⟩
  · intro hf6 hcrc hreg
    rw [process_frame_eq_dispatch uid frame proto ctx hlen hhd (Or.inl hbc), hbc, hf6]
    rw [dispatch_func6 frame proto ctx (frameStart proto) true
      (initResponse frame proto true) hlen (frameStart_le proto) hcrc]
    have hset : context.set
        (256 * fbyte frame (frameStart proto + 2) + fbyte frame (frameStart proto + 3))
        (256 * fbyte frame (frameStart proto + 4) + fbyte frame (frameStart proto + 5))
        ctx.holdings
        = .ok (ctx.holdings.set
          (256 * fbyte frame (frameStart proto + 2) + fbyte frame (frameStart proto + 3))
          (256 * fbyte frame (frameStart proto + 4) + fbyte frame (frameStart proto + 5))) := by
      rw [context.set, if_pos hreg]
    rw [hset]
    rfl
  · intro hf15 hgate hsmall hrange
    have hset : context.set_bools_from_u8
        (256 * fbyte frame (frameStart proto + 2) + fbyte frame (frameStart proto + 3))
        (256 * fbyte frame (frameStart proto + 4) + fbyte frame (frameStart proto + 5))
        (dataSlice frame (frameStart proto) (fbyte frame (frameStart proto + 6)))
        ctx.coils
        = .ok ((List.range
            (256 * fbyte frame (frameStart proto + 4) + fbyte frame (frameStart proto + 5))).foldl
          (fun b i => b.set
            (256 * fbyte frame (frameStart proto + 2) + fbyte frame (frameStart proto + 3) + i)
            (Nat.testBit
              ((dataSlice frame (frameStart proto)
                (fbyte frame (frameStart proto + 6))).getD (i / 8) 0 % 256) (i % 8)))
          ctx.coils) := by
      rw [context.set_bools_from_u8, if_pos hrange]
    refine ⟨_, hset, ?_⟩
    rw [process_frame_eq_dispatch uid frame proto ctx hlen hhd (Or.inl hbc), hbc, hf15]
    rw [dispatch_func15 frame proto ctx (frameStart proto) true
      (initResponse frame proto true) hlen (frameStart_le proto) hgate hsmall]
    rw [hset]
    rfl
  · intro hf16 hgate hsmall hrange
    have hset : context.set_regs_from_u8
        (256 * fbyte frame (frameStart proto + 2) + fbyte frame (frameStart proto + 3))
        (dataSlice frame (frameStart proto) (fbyte frame (frameStart proto + 6)))
        ctx.holdings
        = .ok ((List.range
            ((dataSlice frame (frameStart proto) (fbyte frame (frameStart proto + 6))).length
              / 2)).foldl
          (fun b i => b.set
            (256 * fbyte frame (frameStart proto + 2) + fbyte frame (frameStart proto + 3) + i)
            (256 * ((dataSlice frame (frameStart proto)
                (fbyte frame (frameStart proto + 6))).getD (2 * i) 0 % 256)
              + (dataSlice frame (frameStart proto)
                (fbyte frame (frameStart proto + 6))).getD (2 * i + 1) 0 % 256))
          ctx.holdings) := by
      rw [context.set_regs_from_u8, if_pos hrange]
    refine ⟨_, hset, ?_⟩
    rw [process_frame_eq_dispatch uid frame proto ctx hlen hhd (Or.inl hbc), hbc, hf16]
    rw [dispatch_func16 frame proto ctx (frameStart proto) true
      (initResponse frame proto true) hlen (frameStart_le proto) hgate hsmall]
    rw [hset]
    rfl

/-- Witness for C7: a broadcast (unit 0) function-6 write over TCP mutates
holding register 2 to 77 and yields no reply. -/
theorem c7_witness :
    process_frame 1 (mkFrame [0, 0, 0, 0, 0, 6, 0, 6, 0, 2, 0, 77]) ModbusProto.TcpUdp ctx0
      = .ok ({ ctx0 with holdings := ctx0.holdings.set 2 77 }, none) :=
  (c7_broadcast_write_mutates_without_reply ModbusProto.TcpUdp 1
    (mkFrame [0, 0, 0, 0, 0, 6, 0, 6, 0, 2, 0, 77]) ctx0 (by rfl) (by decide)
    (by decide)).1 (by decide) (by rfl) (by decide)

/-- C8: the function-5 (write single coil) contract — an invalid value field
is exception 0x03 for non-broadcast and silently dropped (no state change)
for broadcast; a valid value is written, echoing the six request bytes on
success and answering exception 0x02 when the address is out of range. -/
theorem c8_write_single_coil_contract (proto : ModbusProto) (uid : Nat)
    (frame : List Nat) (ctx : ModbusContext) (hlen : frame.length = 256)
    (hhd : headerOk frame proto = true) (hf5 : funcOf frame proto = 5)
    (hcrc : crcPass proto frame 6 = true) :
    (256 * fbyte frame (frameStart proto + 4) + fbyte frame (frameStart proto + 5) ≠ 0xff00 →
      256 * fbyte frame (frameStart proto + 4) + fbyte frame (frameStart proto + 5) ≠ 0 →
      isBroadcast frame proto = false → unitOf frame proto = uid % 256 →
      process_frame uid frame proto ctx = .ok (ctx,
        some (finalize_response proto
          (errResponse proto frame (initResponse frame proto false) 3))))
    ∧ (256 * fbyte frame (frameStart proto + 4) + fbyte frame (frameStart proto + 5) ≠ 0xff00 →
      256 * fbyte frame (frameStart proto + 4) + fbyte frame (frameStart proto + 5) ≠ 0 →
      isBroadcast frame proto = true →
      process_frame uid frame proto ctx = .ok (ctx, none))
    ∧ ((256 * fbyte frame (frameStart proto + 4) + fbyte frame (frameStart proto + 5) = 0xff00
        ∨ 256 * fbyte frame (frameStart proto + 4) + fbyte frame (frameStart proto + 5) = 0) →
      isBroadcast frame proto = false → unitOf frame proto = uid % 256 →
      256 * fbyte frame (frameStart proto + 2) + fbyte frame (frameStart proto + 3)
        < ctx.coils.length →
      process_frame uid frame proto ctx = .ok ({ ctx with coils := (ctx.coils.set
          (256 * fbyte frame (frameStart proto + 2) + fbyte frame (frameStart proto + 3))
          (256 * fbyte frame (frameStart proto + 4) + fbyte frame (frameStart proto + 5)
            == 0xff00)) },
        some (finalize_response proto
          (response_set_data_len proto (initResponse frame proto false) 6
            ++ echoSlice frame (frameStart proto) 6))))
    ∧ ((256 * fbyte frame (frameStart proto + 4) + fbyte frame (frameStart proto + 5) = 0xff00
        ∨ 256 * fbyte frame (frameStart proto + 4) + fbyte frame (frameStart proto + 5) = 0) →
      isBroadcast frame proto = false → unitOf frame proto = uid % 256 →
      ctx.coils.length ≤ 256 * fbyte frame (frameStart proto + 2)
        + fbyte frame (frameStart proto + 3) →
      process_frame uid frame proto ctx = .ok (ctx,
        some (finalize_response proto
          (errResponse proto frame (initResponse frame proto false) 2)))) := by
  refine ⟨?_, ?_, ?_, ?_⟩
  · intro hv1 hv2 hbc huid
    rw [process_frame_eq_dispatch uid frame proto ctx hlen hhd (Or.inr huid), hbc, hf5]
    rw [dispatch_func5 frame proto ctx (frameStart proto) false
      (initResponse frame proto false) hlen (frameStart_le proto) hcrc]
    rw [if_neg (not_or.mpr ⟨hv1, hv2⟩)]
    rfl
  · intro hv1 hv2 hbc
    rw [process_frame_eq_dispatch uid frame proto ctx hlen hhd (Or.inl hbc), hbc, hf5]
    rw [dispatch_func5 frame proto ctx (frameStart proto) true
      (initResponse frame proto true) hlen (frameStart_le proto) hcrc]
    rw [if_neg (not_or.mpr ⟨hv1, hv2⟩)]
    rfl
  · intro hword hbc huid hreg
    rw [process_frame_eq_dispatch uid frame proto ctx hlen hhd (Or.inr huid), hbc, hf5]
    rw [dispatch_func5 frame proto ctx (frameStart proto) false
      (initResponse frame proto false) hlen (frameStart_le proto) hcrc]
    rw [if_pos hword]
    have hset : context.set
        (256 * fbyte frame (frameStart proto + 2) + fbyte frame (frameStart proto + 3))
        (256 * fbyte frame (frameStart proto + 4) + fbyte frame (frameStart proto + 5)
          == 0xff00) ctx.coils
        = .ok (ctx.coils.set
          (256 * fbyte frame (frameStart proto + 2) + fbyte frame (frameStart proto + 3))
          (256 * fbyte frame (frameStart proto + 4) + fbyte frame (frameStart proto + 5)
            == 0xff00)) := by
      rw [context.set, if_pos hreg]
    rw [hset]
    rfl
  · intro hword hbc huid hreg
    rw [process_frame_eq_dispatch uid frame proto ctx hlen hhd (Or.inr huid), hbc, hf5]
    rw [dispatch_func5 frame proto ctx (frameStart proto) false
      (initResponse frame proto false) hlen (frameStart_le proto) hcrc]
    rw [if_pos hword]
    have hset : context.set
        (256 * fbyte frame (frameStart proto + 2) + fbyte frame (frameStart proto + 3))
        (256 * fbyte frame (frameStart proto + 4) + fbyte frame (frameStart proto + 5)
          == 0xff00) ctx.coils
        = .error .addressOutOfRange := by
      rw [context.set, if_neg (by omega)]
    rw [hset]
    rfl

/-- Witness for C8: a TCP write of coil 3 to 0xFF00 for unit 1 echoes the six
request bytes and sets the coil. -/
theorem c8_witness :
    process_frame 1 (mkFrame [0, 9, 0, 0, 0, 6, 1, 5, 0, 3, 255, 0]) ModbusProto.TcpUdp ctx0
      = .ok ({ ctx0 with coils := ctx0.coils.set 3 true },
        some [0, 9, 0, 0, 0, 6, 1, 5, 0, 3, 255, 0]) :=
  ((c8_write_single_coil_contract ModbusProto.TcpUdp 1
    (mkFrame [0, 9, 0, 0, 0, 6, 1, 5, 0, 3, 255, 0]) ctx0 (by rfl) (by decide) (by decide)
    (by rfl)).2.2.1 (Or.inl (by decide)) (by decide) (by decide) (by decide)).trans (by rfl)

theorem reply_shape_of_finalize {c ctx' : ModbusContext} {r reply : List Nat}
    (h : (Except.ok (c, some (finalize_response ModbusProto.Rtu r)) :
      Except PanicErr (ModbusContext × Option (List Nat))) = .ok (ctx', some reply)) :
    ∃ body, reply = body ++ [calc_rtu_crc body (body.length % 256) % 256,
      calc_rtu_crc body (body.length % 256) / 256] := by
  have h1 : some (finalize_response ModbusProto.Rtu r) = some reply :=
    congrArg (fun x => Prod.snd x) (Except.ok.inj h)
  exact ⟨r, (Option.some.inj h1).symm⟩

theorem none_ne_some {c ctx' : ModbusContext} {reply : List Nat}
    (h : (Except.ok (c, none) :
      Except PanicErr (ModbusContext × Option (List Nat))) = .ok (ctx', some reply)) :
    False := by
  have h1 : (none : Option (List Nat)) = some reply :=
    congrArg (fun x => Prod.snd x) (Except.ok.inj h)
  exact Option.noConfusion h1

/-- C9: every RTU reply of process_frame — success or exception, every
function code — ends with the little-endian encoding of calc_rtu_crc computed
over all preceding bytes of the reply. -/
theorem c9_rtu_replies_end_with_crc (uid : Nat) (frame : List Nat)
    (ctx ctx' : ModbusContext) (reply : List Nat) (hlen : frame.length = 256)
    (h : process_frame uid frame ModbusProto.Rtu ctx = .ok (ctx', some reply)) :
    ∃ body, reply = body ++ [calc_rtu_crc body (body.length % 256) % 256,
      calc_rtu_crc body (body.length % 256) / 256] := by
  by_cases hu : isBroadcast frame ModbusProto.Rtu = true
      ∨ unitOf frame ModbusProto.Rtu = uid % 256
  case neg =>
    push_neg at hu
    rw [process_frame_none_of_foreign uid frame ModbusProto.Rtu ctx hlen
      (Bool.eq_false_iff.mpr hu.1) hu.2] at h
    exact (none_ne_some h).elim
  case pos =>
    rw [process_frame_eq_dispatch uid frame ModbusProto.Rtu ctx hlen rfl hu] at h
    rw [show funcOf frame ModbusProto.Rtu = fbyte frame 1 from rfl] at h
    by_cases h14 : 1 ≤ fbyte frame 1 ∧ fbyte frame 1 ≤ 4
    · cases hbc : isBroadcast frame ModbusProto.Rtu with
      | true =>
          rw [hbc] at h
          rw [dispatch_read_bc frame ModbusProto.Rtu ctx _ _ _ h14.1 h14.2] at h
          exact (none_ne_some h).elim
      | false =>
          rw [hbc] at h
          cases hcp : crcPass ModbusProto.Rtu frame 6 with
          | false =>
              rw [dispatch_read_crcfail frame ModbusProto.Rtu ctx _ _ _ h14.1 h14.2
                hlen hcp] at h
              exact (none_ne_some h).elim
          | true =>
              rw [dispatch_read frame ModbusProto.Rtu ctx _ _ _ h14.1 h14.2 hlen
                (frameStart_le ModbusProto.Rtu) hcp] at h
              split at h
              · exact reply_shape_of_finalize h
              · split at h
                · exact reply_shape_of_finalize h
                · exact reply_shape_of_finalize h
    · by_cases h5 : fbyte frame 1 = 5
      · rw [h5] at h
        cases hcp : crcPass ModbusProto.Rtu frame 6 with
        | false =>
            rw [dispatch_func5_crcfail frame ModbusProto.Rtu ctx _ _ _ hlen hcp] at h
            exact (none_ne_some h).elim
        | true =>
            rw [dispatch_func5 frame ModbusProto.Rtu ctx _ _ _ hlen
              (frameStart_le ModbusProto.Rtu) hcp] at h
            split at h
            · split at h
              · split at h
                · exact (none_ne_some h).elim
                · exact reply_shape_of_finalize h
              · split at h
                · exact (none_ne_some h).elim
                · exact reply_shape_of_finalize h
            · split at h
              · exact (none_ne_some h).elim
              · exact reply_shape_of_finalize h
      · by_cases h6 : fbyte frame 1 = 6
        · rw [h6] at h
          cases hcp : crcPass ModbusProto.Rtu frame 6 with
          | false =>
              rw [dispatch_func6_crcfail frame ModbusProto.Rtu ctx _ _ _ hlen hcp] at h
              exact (none_ne_some h).elim
          | true =>
              rw [dispatch_func6 frame ModbusProto.Rtu ctx _ _ _ hlen
                (frameStart_le ModbusProto.Rtu) hcp] at h
              split at h
              · split at h
                · exact (none_ne_some h).elim
                · exact reply_shape_of_finalize h
              · split at h
                · exact (none_ne_some h).elim
                · exact reply_shape_of_finalize h
        · by_cases h1516 : fbyte frame 1 = 15 ∨ fbyte frame 1 = 16
          · cases hg : check_frame_crc ModbusProto.Rtu frame
                ((7 + fbyte frame (frameStart ModbusProto.Rtu + 6)) % 256) with
            | error e =>
                rw [dispatch_wmulti_gate_err frame ModbusProto.Rtu ctx _ _ _ _ e hlen
                  (frameStart_le ModbusProto.Rtu) h1516 hg] at h
                exact Except.noConfusion h
            | ok b =>
                cases b with
                | false =>
                    rw [dispatch_wmulti_crcfail frame ModbusProto.Rtu ctx _ _ _ _ hlen
                      (frameStart_le ModbusProto.Rtu) h1516 hg] at h
                    exact (none_ne_some h).elim
                | true =>
                    by_cases hbig : 242 < fbyte frame (frameStart ModbusProto.Rtu + 6)
                    · rw [dispatch_wmulti_oversize frame ModbusProto.Rtu ctx _ _ _ _ hlen
                        (frameStart_le ModbusProto.Rtu) h1516 hg hbig] at h
                      split at h
                      · exact (none_ne_some h).elim
                      · exact reply_shape_of_finalize h
                    · rcases h1516 with h15 | h16
                      · rw [h15] at h
                        rw [dispatch_func15 frame ModbusProto.Rtu ctx _ _ _ hlen
                          (frameStart_le ModbusProto.Rtu) hg (by omega)] at h
                        split at h
                        · split at h
                          · exact (none_ne_some h).elim
                          · exact reply_shape_of_finalize h
                        · split at h
                          · exact (none_ne_some h).elim
                          · exact reply_shape_of_finalize h
                      · rw [h16] at h
                        rw [dispatch_func16 frame ModbusProto.Rtu ctx _ _ _ hlen
                          (frameStart_le ModbusProto.Rtu) hg (by omega)] at h
                        split at h
                        · split at h
                          · exact (none_ne_some h).elim
                          · exact reply_shape_of_finalize h
                        · split at h
                          · exact (none_ne_some h).elim
                          · exact reply_shape_of_finalize h
          · rw [dispatch_unknown frame ModbusProto.Rtu ctx _ _ _ _ hlen h14 h5 h6
              (by omega) (by omega)] at h
            exact reply_shape_of_finalize h

/-- Witness for C9: the exception-0x01 reply to an unsupported function code
carries its checksum as the trailing two bytes. -/
theorem c9_witness :
    ∃ body, ([1, 137, 1, 134, 80] : List Nat)
      = body ++ [calc_rtu_crc body (body.length % 256) % 256,
        calc_rtu_crc body (body.length % 256) / 256] :=
  c9_rtu_replies_end_with_crc 1 (mkFrame [1, 9]) ctx0 ctx0 [1, 137, 1, 134, 80]
    (by rfl) (by rfl)

/-- A TCP/UDP frame with an invalid MBAP header (protocol id nonzero or
length below 6) is dropped. -/
theorem process_frame_none_of_bad_header (uid : Nat) (frame : List Nat)
    (ctx : ModbusContext) (hlen : frame.length = 256)
    (hhd : headerOk frame ModbusProto.TcpUdp = false) :
    process_frame uid frame ModbusProto.TcpUdp ctx = .ok (ctx, none) := by
  have hc : 256 * fbyte frame 2 + fbyte frame 3 ≠ 0
      ∨ 256 * fbyte frame 4 + fbyte frame 5 < 6 := by
    have h1 : ¬ (headerOk frame ModbusProto.TcpUdp = true) := by
      rw [hhd]
      exact Bool.false_ne_true
    simp only [headerOk, Bool.and_eq_true, beq_iff_eq, decide_eq_true_eq, not_and_or] at h1
    rcases h1 with h | h
    · exact Or.inl h
    · exact Or.inr (by omega)
  rw [process_frame]
  rw [if_pos (rfl : ModbusProto.TcpUdp = ModbusProto.TcpUdp)]
  rw [frameByte_ok frame 2 hlen (by omega), exceptBind_ok,
    frameByte_ok frame 3 hlen (by omega), exceptBind_ok,
    frameByte_ok frame 4 hlen (by omega), exceptBind_ok,
    frameByte_ok frame 5 hlen (by omega), exceptBind_ok]
  rw [if_pos hc]
  rfl

/-- C10: for a function-16 request over TCP/UDP, the declared register count
field (frame bytes 10-11, the two bytes at offsets 4-5 after the unit id) is
never validated against the payload byte count and does not influence the
write — the resulting context is identical when those two bytes are replaced
by anything — while on a successful non-broadcast write the write is
determined by the payload byte count at offset 6 after the unit id and the
count bytes appear in the reply only inside the verbatim six-byte echo. -/
theorem c10_func16_count_only_echoed (uid : Nat) (frame : List Nat)
    (ctx : ModbusContext) (c4 c5 : Nat) (hlen : frame.length = 256)
    (hfunc : fbyte frame 7 = 16) :
    ((process_frame uid frame ModbusProto.TcpUdp ctx).map Prod.fst
      = (process_frame uid ((frame.set 10 c4).set 11 c5) ModbusProto.TcpUdp ctx).map
          Prod.fst)
    ∧ (∀ holdings', headerOk frame ModbusProto.TcpUdp = true →
        isBroadcast frame ModbusProto.TcpUdp = false →
        unitOf frame ModbusProto.TcpUdp = uid % 256 →
        fbyte frame 12 ≤ 242 →
        context.set_regs_from_u8 (256 * fbyte frame 8 + fbyte frame 9)
          (dataSlice frame 6 (fbyte frame 12)) ctx.holdings = .ok holdings' →
        process_frame uid frame ModbusProto.TcpUdp ctx
          = .ok ({ ctx with holdings := holdings' },
            some (finalize_response ModbusProto.TcpUdp
              (response_set_data_len ModbusProto.TcpUdp
                (initResponse frame ModbusProto.TcpUdp false) 6
                ++ echoSlice frame 6 6)))) := by
  have hlen2 : ((frame.set 10 c4).set 11 c5).length = 256 := by
    rw [List.length_set, List.length_set, hlen]
  have hfb : ∀ i, i ≠ 10 → i ≠ 11 →
      fbyte ((frame.set 10 c4).set 11 c5) i = fbyte frame i := by
    intro i h10 h11
    unfold fbyte
    rw [List.getD_eq_getElem?_getD, List.getD_eq_getElem?_getD,
      List.getElem?_set_ne (Ne.symm h11), List.getElem?_set_ne (Ne.symm h10)]
  have hunit2 : unitOf ((frame.set 10 c4).set 11 c5) ModbusProto.TcpUdp
      = unitOf frame ModbusProto.TcpUdp :=
    hfb (frameStart ModbusProto.TcpUdp) (by decide) (by decide)
  have hbc2 : isBroadcast ((frame.set 10 c4).set 11 c5) ModbusProto.TcpUdp
      = isBroadcast frame ModbusProto.TcpUdp := by
    simp only [isBroadcast, hunit2]
  have hfo2 : funcOf ((frame.set 10 c4).set 11 c5) ModbusProto.TcpUdp
      = funcOf frame ModbusProto.TcpUdp :=
    hfb (frameStart ModbusProto.TcpUdp + 1) (by decide) (by decide)
  have hhd2 : headerOk ((frame.set 10 c4).set 11 c5) ModbusProto.TcpUdp
      = headerOk frame ModbusProto.TcpUdp := by
    simp only [headerOk, hfb 2 (by decide) (by decide), hfb 3 (by decide) (by decide),
      hfb 4 (by decide) (by decide), hfb 5 (by decide) (by decide)]
  have hb2 : fbyte ((frame.set 10 c4).set 11 c5) (frameStart ModbusProto.TcpUdp + 6)
      = fbyte frame (frameStart ModbusProto.TcpUdp + 6) :=
    hfb (frameStart ModbusProto.TcpUdp + 6) (by decide) (by decide)
  constructor
  · by_cases hhd : headerOk frame ModbusProto.TcpUdp = true
    · by_cases hu : isBroadcast frame ModbusProto.TcpUdp = true
          ∨ unitOf frame ModbusProto.TcpUdp = uid % 256
      · have hu2 : isBroadcast ((frame.set 10 c4).set 11 c5) ModbusProto.TcpUdp = true
            ∨ unitOf ((frame.set 10 c4).set 11 c5) ModbusProto.TcpUdp = uid % 256 := by
          rcases hu with h | h
          · exact Or.inl (hbc2.trans h)
          · exact Or.inr (hunit2.trans h)
        rw [process_frame_eq_dispatch uid frame ModbusProto.TcpUdp ctx hlen hhd hu,
          process_frame_eq_dispatch uid ((frame.set 10 c4).set 11 c5) ModbusProto.TcpUdp
            ctx hlen2 (hhd2.trans hhd) hu2]
        rw [hbc2, hfo2]
        rw [show funcOf frame ModbusProto.TcpUdp = fbyte frame 7 from rfl, hfunc]
        by_cases hbig : 242 < fbyte frame (frameStart ModbusProto.TcpUdp + 6)
        · rw [dispatch_wmulti_oversize frame ModbusProto.TcpUdp ctx
              (frameStart ModbusProto.TcpUdp) (isBroadcast frame ModbusProto.TcpUdp)
              (initResponse frame ModbusProto.TcpUdp (isBroadcast frame ModbusProto.TcpUdp))
              16 hlen (frameStart_le ModbusProto.TcpUdp) (Or.inr rfl) rfl hbig,
            dispatch_wmulti_oversize ((frame.set 10 c4).set 11 c5) ModbusProto.TcpUdp ctx
              (frameStart ModbusProto.TcpUdp) (isBroadcast frame ModbusProto.TcpUdp)
              (initResponse ((frame.set 10 c4).set 11 c5) ModbusProto.TcpUdp
                (isBroadcast frame ModbusProto.TcpUdp))
              16 hlen2 (frameStart_le ModbusProto.TcpUdp) (Or.inr rfl) rfl
              (by rw [hb2]; exact hbig)]
          cases isBroadcast frame ModbusProto.TcpUdp <;> rfl
        · have hreg2a : fbyte ((frame.set 10 c4).set 11 c5)
              (frameStart ModbusProto.TcpUdp + 2)
              = fbyte frame (frameStart ModbusProto.TcpUdp + 2) :=
            hfb (frameStart ModbusProto.TcpUdp + 2) (by decide) (by decide)
          have hreg2b : fbyte ((frame.set 10 c4).set 11 c5)
              (frameStart ModbusProto.TcpUdp + 3)
              = fbyte frame (frameStart ModbusProto.TcpUdp + 3) :=
            hfb (frameStart ModbusProto.TcpUdp + 3) (by decide) (by decide)
          have hdata2 : dataSlice ((frame.set 10 c4).set 11 c5)
              (frameStart ModbusProto.TcpUdp)
              (fbyte ((frame.set 10 c4).set 11 c5) (frameStart ModbusProto.TcpUdp + 6))
              = dataSlice frame (frameStart ModbusProto.TcpUdp)
                (fbyte frame (frameStart ModbusProto.TcpUdp + 6)) := by
            rw [hb2]
            unfold dataSlice
            rw [List.drop_set_of_lt c5 (frame.set 10 c4) (by decide),
              List.drop_set_of_lt c4 frame (by decide)]
          rw [dispatch_func16 frame ModbusProto.TcpUdp ctx
              (frameStart ModbusProto.TcpUdp) (isBroadcast frame ModbusProto.TcpUdp)
              (initResponse frame ModbusProto.TcpUdp (isBroadcast frame ModbusProto.TcpUdp))
              hlen (frameStart_le ModbusProto.TcpUdp) rfl (by omega),
            dispatch_func16 ((frame.set 10 c4).set 11 c5) ModbusProto.TcpUdp ctx
              (frameStart ModbusProto.TcpUdp) (isBroadcast frame ModbusProto.TcpUdp)
              (initResponse ((frame.set 10 c4).set 11 c5) ModbusProto.TcpUdp
                (isBroadcast frame ModbusProto.TcpUdp))
              hlen2 (frameStart_le ModbusProto.TcpUdp) rfl (by rw [hb2]; omega)]
          rw [hreg2a, hreg2b, hdata2]
          cases hset : context.set_regs_from_u8
              (256 * fbyte frame (frameStart ModbusProto.TcpUdp + 2)
                + fbyte frame (frameStart ModbusProto.TcpUdp + 3))
              (dataSlice frame (frameStart ModbusProto.TcpUdp)
                (fbyte frame (frameStart ModbusProto.TcpUdp + 6))) ctx.holdings with
          | ok holdings => cases isBroadcast frame ModbusProto.TcpUdp <;> rfl
          | error e => cases isBroadcast frame ModbusProto.TcpUdp <;> rfl
      · push_neg at hu
        rw [process_frame_none_of_foreign uid frame ModbusProto.TcpUdp ctx hlen
            (Bool.eq_false_iff.mpr hu.1) hu.2,
          process_frame_none_of_foreign uid ((frame.set 10 c4).set 11 c5)
            ModbusProto.TcpUdp ctx hlen2
            (by rw [hbc2]; exact Bool.eq_false_iff.mpr hu.1)
            (by rw [hunit2]; exact hu.2)]
    · rw [process_frame_none_of_bad_header uid frame ctx hlen
          (Bool.eq_false_iff.mpr hhd),
        process_frame_none_of_bad_header uid ((frame.set 10 c4).set 11 c5) ctx hlen2
          (by rw [hhd2]; exact Bool.eq_false_iff.mpr hhd)]
  · intro holdings' hhd hbc huid hsmall hset
    rw [process_frame_eq_dispatch uid frame ModbusProto.TcpUdp ctx hlen hhd (Or.inr huid)]
    rw [hbc]
    rw [show funcOf frame ModbusProto.TcpUdp = fbyte frame 7 from rfl, hfunc]
    rw [dispatch_func16 frame ModbusProto.TcpUdp ctx (frameStart ModbusProto.TcpUdp)
      false (initResponse frame ModbusProto.TcpUdp false) hlen
      (frameStart_le ModbusProto.TcpUdp) rfl hsmall]
    have hset2 : context.set_regs_from_u8
        (256 * fbyte frame (frameStart ModbusProto.TcpUdp + 2)
          + fbyte frame (frameStart ModbusProto.TcpUdp + 3))
        (dataSlice frame (frameStart ModbusProto.TcpUdp)
          (fbyte frame (frameStart ModbusProto.TcpUdp + 6))) ctx.holdings
        = .ok holdings' := hset
    rw [hset2]
    rfl

/-- Witness for C10 part two and the count-independence, at a concrete
function-16 request writing registers 4 and 5. -/
theorem c10_witness :
    process_frame 1 (mkFrame [0, 2, 0, 0, 0, 11, 1, 16, 0, 4, 0, 2, 4, 0, 7, 0, 9])
        ModbusProto.TcpUdp ctx0
      = .ok ({ ctx0 with holdings := ((ctx0.holdings.set 4 7).set 5 9) },
        some [0, 2, 0, 0, 0, 6, 1, 16, 0, 4, 0, 2]) :=
  ((c10_func16_count_only_echoed 1
    (mkFrame [0, 2, 0, 0, 0, 11, 1, 16, 0, 4, 0, 2, 4, 0, 7, 0, 9]) ctx0 0 2 (by rfl)
    (by decide)).2 ((ctx0.holdings.set 4 7).set 5 9) (by decide) (by decide) (by decide)
    (by decide) (by rfl)).trans (by rfl)

example : calc_rtu_crc [1, 3, 0, 0, 0, 10] 6 = 0xCDC5 := by decide
